import Mathlib

/-!
Verification of the `catacurses` facade (src/src/cursesdef.h).

The header declares a curses-style rendering facade: the `window` value type
(a wrapper over a type-erased `WINDOW* = void*`), the scoped owner
`WINDOW_PTR = std::unique_ptr<WINDOW, delwin_functor>`, the `base_color`
enumeration, and the drawing operation surface.  We embed the data model
shallowly: raw pointers become addresses (`Nat`, with `0` standing for
`nullptr`), and backend calls become explicit event traces, so lifetime
properties are statements about which events an operation emits.
-/

namespace Catacurses

/-- A raw backend pointer, modelled as an address; `0` models `nullptr`.
`WINDOW` is `void` in the header, so `WINDOW*` carries no structure beyond
the address itself. -/
abbrev Ptr := Nat

/-- The null pointer value. -/
def nullPtr : Ptr := 0

/-- One observable backend call.  The facade forwards everything to the
active backend; for lifetime claims we only need to record which calls
happen, on which handle, in which order. -/
inductive Event where
  | werase (w : Ptr)
  | wrefresh (w : Ptr)
  | delwin (w : Ptr)
  | printText (w : Ptr) (text : String)
  | mvPrintText (w : Ptr) (y : Int) (x : Int) (text : String)
  deriving DecidableEq, Repr

/-- `class window` (src/src/cursesdef.h lines 62-81): a plain wrapper holding
one `WINDOW *native_window` field and nothing else. -/
structure window where
  native_window : Ptr
  deriving DecidableEq, Repr

/-- `window() : native_window( nullptr ) { }` — the default constructor. -/
def window.mkDefault : window := ⟨nullPtr⟩

/-- `template<typename T> window( T *const ptr ) : native_window( static_cast<WINDOW *>( ptr ) )`.
A `static_cast` between an object pointer type and `void*` preserves the
address, so in the embedding the constructor stores the address unchanged. -/
def window.ofPtr (p : Ptr) : window := ⟨p⟩

/-- `template<typename T = WINDOW> T * get() const { return static_cast<T *>( native_window ); }`.
The cast back from `void*` again preserves the address. -/
def window.get (w : window) : Ptr := w.native_window

/-- `operator WINDOW *() const { return get(); }` — the implicit conversion. -/
def window.toWINDOW (w : window) : Ptr := w.get

/-- The implicitly generated copy constructor of `window`: it copies the one
pointer member, giving a second value holding the same handle. -/
def window.copy (w : window) : window := ⟨w.native_window⟩

/-- `~window() { }` — the destructor has an empty body, so it emits no
backend call: given the backend trace so far, it returns it unchanged. -/
def window.destruct (_ : window) (backendTrace : List Event) : List Event :=
  backendTrace

/-- Handle equality between two window values: they refer to the same
underlying window exactly when their stored handles are equal. -/
def window.sameHandle (a b : window) : Prop := a.get = b.get

/-- Modelled from the spec: the body of `delwin_functor::operator()` lives in
the backend translation units (ncurses_def.cpp / cursesport.cpp), which are
not under src/.  The header comment (src/src/cursesdef.h lines 87-95)
documents that teardown calls `werase`, `wrefresh` and `delwin`, in that
order, on the owned pointer. -/
def delwin_functor.call (w : Ptr) : List Event :=
  [Event.werase w, Event.wrefresh w, Event.delwin w]

/-- `using WINDOW_PTR = std::unique_ptr<WINDOW, delwin_functor>` — the state
of the owner is just its stored pointer. -/
structure WINDOW_PTR where
  ptr : Ptr
  deriving DecidableEq, Repr

/-- The `std::unique_ptr` destructor: if the stored pointer is non-null it
invokes the deleter (`delwin_functor`) on it, otherwise it has no effect. -/
def WINDOW_PTR.destructor (u : WINDOW_PTR) : List Event :=
  if u.ptr ≠ nullPtr then delwin_functor.call u.ptr else []

/-- `std::unique_ptr::release`: returns the stored pointer and replaces it
with null, invoking no deleter. -/
def WINDOW_PTR.release (u : WINDOW_PTR) : Ptr × WINDOW_PTR :=
  (u.ptr, ⟨nullPtr⟩)

/-- `std::unique_ptr::reset(p)`: the stored pointer becomes `p`; the old
pointer, if non-null, is passed to the deleter.  The returned pair is the
new owner state and the trace of backend calls the deleter emitted. -/
def WINDOW_PTR.reset (u : WINDOW_PTR) (p : Ptr) : WINDOW_PTR × List Event :=
  (⟨p⟩, if u.ptr ≠ nullPtr then delwin_functor.call u.ptr else [])

/-- The `std::unique_ptr` move constructor / move assignment source-target
pair: the destination takes the stored pointer, the source is left null.
Result is `(destination, source after the move)`. -/
def WINDOW_PTR.moveTo (u : WINDOW_PTR) : WINDOW_PTR × WINDOW_PTR :=
  (⟨u.ptr⟩, ⟨nullPtr⟩)

/-- An operation callers may perform on a live scoped owner before it goes
out of scope.  `std::unique_ptr` has no copy operation (its copy constructor
and copy assignment are deleted), so none appears here. -/
inductive OwnerOp where
  | reset (p : Ptr)
  | release
  deriving DecidableEq, Repr

/-- One owner operation: the successor owner state and the backend calls
emitted while performing it.  `release` discards the returned raw pointer
(handing it to some other party) and emits nothing. -/
def stepOwner (u : WINDOW_PTR) : OwnerOp → WINDOW_PTR × List Event
  | OwnerOp.reset p => u.reset p
  | OwnerOp.release => ((u.release).2, [])

/-- The full life of a scoped owner: perform the given operations in order,
then run the destructor at scope exit; collect every backend call emitted. -/
def ownerRun (u : WINDOW_PTR) : List OwnerOp → List Event
  | [] => u.destructor
  | op :: rest => (stepOwner u op).2 ++ ownerRun (stepOwner u op).1 rest

/-- Number of `delwin` calls on handle `h` in a backend trace. -/
def countDelwin (tr : List Event) (h : Ptr) : Nat :=
  tr.countP (fun e => decide (e = Event.delwin h))

/-- The points in an owner's life at which the handle `h` is torn down:
once at each `reset` performed while holding `h`, and once at scope exit if
still holding `h`.  A `release` abandons the held pointer without teardown. -/
def teardownPoints (c : Ptr) (ops : List OwnerOp) (h : Ptr) : Nat :=
  match ops with
  | [] => if c = h then 1 else 0
  | OwnerOp.reset p :: rest => (if c = h then 1 else 0) + teardownPoints p rest h
  | OwnerOp.release :: rest => teardownPoints nullPtr rest h

/-- A printf-style variadic argument, as passed to the template overloads of
`mvwprintw` / `wprintw`. -/
inductive FmtArg where
  | intArg (n : Int)
  | strArg (s : String)
  deriving DecidableEq, Repr

/-- Modelled from the spec: `string_format` comes from string_formatter.h,
which is not under src/.  The spec describes it as a string-formatting
service that accepts printf-style format specifiers and a variable argument
list and produces a plain string, with no special handling of
drawing-specific tokens.  We render `%d` and `%s` from the argument list,
`%%` as a literal percent sign, and copy every other character through. -/
def formatChars : List Char → List FmtArg → String
  | [], _ => ""
  | '%' :: 'd' :: rest, FmtArg.intArg n :: args => toString n ++ formatChars rest args
  | '%' :: 's' :: rest, FmtArg.strArg s :: args => s ++ formatChars rest args
  | '%' :: '%' :: rest, args => "%" ++ formatChars rest args
  | c :: rest, args => c.toString ++ formatChars rest args

/-- Modelled from the spec: the entry point of the external formatter,
`string_format(fmt, args...) -> string`. -/
def string_format (fmt : String) (args : List FmtArg) : String :=
  formatChars fmt.data args

/-- `void mvwprintw( const window &win, int y, int x, const std::string &text )`
(src/src/cursesdef.h line 128) — the plain-string form; its backend
implementation is outside src/, so we record the forwarded call as an event. -/
def mvwprintw (win : window) (y x : Int) (text : String) : Event :=
  Event.mvPrintText win.get y x text

/-- The template overload of `mvwprintw` (src/src/cursesdef.h lines 129-134):
`return mvwprintw( win, y, x, string_format( fmt, std::forward<Args>( args )... ) );` -/
def mvwprintwFmt (win : window) (y x : Int) (fmt : String) (args : List FmtArg) : Event :=
  mvwprintw win y x (string_format fmt args)

/-- `void wprintw( const window &win, const std::string &text )`
(src/src/cursesdef.h line 136) — the plain-string form. -/
def wprintw (win : window) (text : String) : Event :=
  Event.printText win.get text

/-- The template overload of `wprintw` (src/src/cursesdef.h lines 137-141):
`return wprintw( win, string_format( fmt, std::forward<Args>( args )... ) );` -/
def wprintwFmt (win : window) (fmt : String) (args : List FmtArg) : Event :=
  wprintw win (string_format fmt args)

/-- `enum base_color : short` (src/src/cursesdef.h lines 102-111), with its
eight enumerators in declaration order. -/
inductive base_color where
  | black
  | red
  | green
  | yellow
  | blue
  | magenta
  | cyan
  | white
  deriving DecidableEq, Fintype, Repr

/-- The underlying `short` value of each enumerator, exactly as written in
the source (`black = 0x00` through `white = 0x07`). -/
def base_color.toShort : base_color → Nat
  | .black => 0x00
  | .red => 0x01
  | .green => 0x02
  | .yellow => 0x03
  | .blue => 0x04
  | .magenta => 0x05
  | .cyan => 0x06
  | .white => 0x07

/-- The enumerators in the order they are declared in the source. -/
def base_color.declarationOrder : List base_color :=
  [.black, .red, .green, .yellow, .blue, .magenta, .cyan, .white]

/-- Whether backend/display setup succeeds, the environment fact
`init_interface` reacts to. -/
inductive SetupOutcome where
  | success
  | failure (msg : String)
  deriving DecidableEq, Repr

/-- Modelled from the spec: the implementation of `void init_interface()` is
in the backend translation units, not under src/; the header only carries
the contract (src/src/cursesdef.h lines 43-45): it throws `std::exception`
upon any errors, the caller should display / log it and abort the program,
and the program may only continue when it returned normally.  An exception
is an out-of-band result, so the embedding returns `Except`: the normal
return carries no value at all (`Unit`, matching the `void` return type, so
no error can travel through the return value), and failure is the
exceptional branch. -/
def init_interface : SetupOutcome → Except String Unit
  | SetupOutcome.success => Except.ok ()
  | SetupOutcome.failure msg => Except.error msg

/-- The caller contract from the header comment: continue the program only
when `init_interface` returned normally; on the exceptional branch the
caller must surface the error and abort. -/
def callerContinues : Except String Unit → Bool
  | Except.ok _ => true
  | Except.error _ => false

lemma countDelwin_nil (h : Ptr) : countDelwin [] h = 0 := rfl

lemma countDelwin_append (a b : List Event) (h : Ptr) :
    countDelwin (a ++ b) h = countDelwin a h + countDelwin b h := by
  simp [countDelwin, List.countP_append]

lemma countDelwin_call (c h : Ptr) :
    countDelwin (delwin_functor.call c) h = if c = h then 1 else 0 := by
  by_cases hc : c = h
  · subst hc; simp [countDelwin, delwin_functor.call]
  · simp [countDelwin, delwin_functor.call, hc]

lemma countDelwin_destructor (u : WINDOW_PTR) (h : Ptr) (hh : h ≠ nullPtr) :
    countDelwin u.destructor h = if u.ptr = h then 1 else 0 := by
  have hnh : nullPtr ≠ h := fun e => hh e.symm
  by_cases hz : u.ptr = nullPtr
  · simp [WINDOW_PTR.destructor, hz, hnh, countDelwin_nil]
  · simp [WINDOW_PTR.destructor, hz, countDelwin_call]

/-- Across any sequence of owner operations followed by scope exit, the
number of `delwin` calls a scoped owner emits on a non-null handle `h` is
exactly the number of teardown points at which the owner held `h`. -/
lemma ownerRun_countDelwin (h : Ptr) (hh : h ≠ nullPtr) :
    ∀ (ops : List OwnerOp) (u : WINDOW_PTR),
      countDelwin (ownerRun u ops) h = teardownPoints u.ptr ops h := by
  intro ops
  induction ops with
  | nil =>
      intro u
      simpa [ownerRun, teardownPoints] using countDelwin_destructor u h hh
  | cons op rest ih =>
      intro u
      cases op with
      | reset p =>
          have hnh : nullPtr ≠ h := fun e => hh e.symm
          by_cases hz : u.ptr = nullPtr
          · simp [ownerRun, stepOwner, WINDOW_PTR.reset, teardownPoints, hz, hnh,
              countDelwin_append, countDelwin_nil, ih]
          · simp [ownerRun, stepOwner, WINDOW_PTR.reset, teardownPoints, hz,
              countDelwin_append, countDelwin_call, ih, Nat.add_comm]
      | release =>
          simp [ownerRun, stepOwner, WINDOW_PTR.release, teardownPoints,
            countDelwin_append, countDelwin_nil, ih]

/-- C1: a scoped owner that still holds a non-null handle at scope exit runs
the teardown exactly once, and that teardown is, in order: erase the
window's contents (`werase`), flush to the display (`wrefresh`), destroy
the window object (`delwin`). -/
theorem window_ptr_scope_exit_teardown (u : WINDOW_PTR) (h : u.ptr ≠ nullPtr) :
    u.destructor = [Event.werase u.ptr, Event.wrefresh u.ptr, Event.delwin u.ptr] ∧
      countDelwin u.destructor u.ptr = 1 := by
  constructor
  · simp [WINDOW_PTR.destructor, h, delwin_functor.call]
  · rw [countDelwin_destructor u u.ptr h]; simp

theorem window_ptr_scope_exit_teardown_witness :
    (WINDOW_PTR.mk 5).ptr ≠ nullPtr ∧
      (WINDOW_PTR.mk 5).destructor =
        [Event.werase 5, Event.wrefresh 5, Event.delwin 5] :=
  ⟨by decide, (window_ptr_scope_exit_teardown ⟨5⟩ (by decide)).1⟩

/-- C2: `release()` returns the owned raw handle and clears ownership; no
backend call is emitted by the release itself, and the destructor of the
cleared owner at scope exit emits nothing at all. -/
theorem window_ptr_release_no_teardown :
    ∀ u : WINDOW_PTR,
      (u.release).1 = u.ptr ∧
        (u.release).2.ptr = nullPtr ∧
        (stepOwner u OwnerOp.release).2 = [] ∧
        (u.release).2.destructor = [] := by
  intro u
  refine ⟨rfl, rfl, rfl, ?_⟩
  simp [WINDOW_PTR.destructor, WINDOW_PTR.release, nullPtr]

/-- C3: `reset(p)` on an owner holding a non-null handle runs the
three-step teardown on the previously owned handle and the owner ends up
holding `p`; moreover, across any sequence of reset/release operations
ending in scope exit, a non-null handle receives exactly one `delwin` per
teardown point at which it was held — a handle abandoned by `release` is
never torn down by the owner. -/
theorem window_ptr_reset_exactly_once (u : WINDOW_PTR) (p : Ptr) (h : u.ptr ≠ nullPtr) :
    u.reset p =
        (⟨p⟩, [Event.werase u.ptr, Event.wrefresh u.ptr, Event.delwin u.ptr]) ∧
      ∀ (v : WINDOW_PTR) (ops : List OwnerOp) (w : Ptr), w ≠ nullPtr →
        countDelwin (ownerRun v ops) w = teardownPoints v.ptr ops w := by
  constructor
  · simp [WINDOW_PTR.reset, h, delwin_functor.call]
  · intro v ops w hw
    exact ownerRun_countDelwin w hw ops v

theorem window_ptr_reset_exactly_once_witness :
    (WINDOW_PTR.mk 3).ptr ≠ nullPtr ∧
      (WINDOW_PTR.mk 3).reset 7 =
        (⟨7⟩, [Event.werase 3, Event.wrefresh 3, Event.delwin 3]) ∧
      (3 : Ptr) ≠ nullPtr ∧
      countDelwin (ownerRun ⟨3⟩ [OwnerOp.reset 7, OwnerOp.release]) 3 =
        teardownPoints 3 [OwnerOp.reset 7, OwnerOp.release] 3 :=
  ⟨by decide, (window_ptr_reset_exactly_once ⟨3⟩ 7 (by decide)).1, by decide,
    (window_ptr_reset_exactly_once ⟨3⟩ 7 (by decide)).2 ⟨3⟩
      [OwnerOp.reset 7, OwnerOp.release] 3 (by decide)⟩

/-- C7: moving a scoped owner transfers the owned handle to the destination
and leaves the source null; the moved-from source emits no teardown, so
across destruction of both owners the handle receives exactly as many
`delwin` calls as a single owner would have emitted — at most one owner is
authoritative.  (Copying is impossible: `std::unique_ptr` deletes its copy
operations, so the owner operation set contains no copy.) -/
theorem window_ptr_move_transfers (u : WINDOW_PTR) :
    (u.moveTo).1.ptr = u.ptr ∧
      (u.moveTo).2.ptr = nullPtr ∧
      (u.moveTo).2.destructor = [] ∧
      countDelwin ((u.moveTo).2.destructor ++ (u.moveTo).1.destructor) u.ptr =
        countDelwin u.destructor u.ptr := by
  refine ⟨rfl, rfl, ?_, ?_⟩
  · simp [WINDOW_PTR.destructor, WINDOW_PTR.moveTo, nullPtr]
  · simp [WINDOW_PTR.moveTo, WINDOW_PTR.destructor, nullPtr, countDelwin_append,
      countDelwin_nil]

/-- C4: the window value preserves the raw handle exactly: constructing a
`window` from any raw pointer and reading it back through `get` (or the
implicit conversion) yields the same pointer, and any two window values
holding the same raw handle refer to the same window. -/
theorem window_handle_roundtrip (p : Ptr) :
    (window.ofPtr p).get = p ∧
      (window.ofPtr p).toWINDOW = p ∧
      ∀ w1 w2 : window, w1.get = p → w2.get = p → window.sameHandle w1 w2 := by
  refine ⟨rfl, rfl, ?_⟩
  intro w1 w2 h1 h2
  unfold window.sameHandle
  rw [h1, h2]

theorem window_handle_roundtrip_witness :
    (window.ofPtr 42).get = 42 ∧
      (window.ofPtr 42).toWINDOW = 42 ∧
      window.sameHandle (window.ofPtr 42) ((window.ofPtr 42).copy) :=
  ⟨(window_handle_roundtrip 42).1, (window_handle_roundtrip 42).2.1,
    (window_handle_roundtrip 42).2.2 (window.ofPtr 42) ((window.ofPtr 42).copy)
      rfl rfl⟩

/-- C5: a default-constructed window value holds the null handle, so `get`
and the implicit conversion to `WINDOW*` return `nullptr`. -/
theorem window_default_is_null :
    window.mkDefault.get = nullPtr ∧ window.mkDefault.toWINDOW = nullPtr :=
  ⟨rfl, rfl⟩

/-- C6: no operation on a window value touches backend state: the
destructor (empty body in the source) leaves the backend trace unchanged —
in particular it emits no `delwin` — and copying merely duplicates the
stored handle. -/
theorem window_value_no_backend_effect :
    ∀ (w : window) (tr : List Event),
      window.destruct w tr = tr ∧
        (∀ h : Ptr, countDelwin (window.destruct w tr) h = countDelwin tr h) ∧
        window.copy w = w ∧
        (window.copy w).get = w.get :=
  fun _ _ => ⟨rfl, fun _ => rfl, rfl, rfl⟩

/-- C8: the formatted-text template overloads equal the composition of the
external formatter with the plain-string forms: formatting first with
`string_format` and then calling the plain-string overload gives exactly
the same backend call. -/
theorem printw_template_forwards :
    ∀ (win : window) (y x : Int) (fmt : String) (args : List FmtArg),
      mvwprintwFmt win y x fmt args = mvwprintw win y x (string_format fmt args) ∧
        wprintwFmt win fmt args = wprintw win (string_format fmt args) :=
  fun _ _ _ _ _ => ⟨rfl, rfl⟩

/-- C9: `base_color` is a closed enumeration of exactly eight members whose
declaration order is black, red, green, yellow, blue, magenta, cyan, white
and whose underlying values are the consecutive integers 0 through 7. -/
theorem base_color_eight_consecutive :
    Fintype.card base_color = 8 ∧
      base_color.declarationOrder.map base_color.toShort =
        [0, 1, 2, 3, 4, 5, 6, 7] ∧
      base_color.declarationOrder.Nodup ∧
      ∀ c : base_color, c ∈ base_color.declarationOrder := by
  refine ⟨?_, rfl, ?_, ?_⟩
  · decide
  · decide
  · intro c; cases c <;> decide

/-- C10: interface initialization signals setup failure out-of-band — the
normal return carries no value (so no error can be returned as a value) and
every failure takes the exceptional branch; the caller contract permits
continued use of the interface exactly on a normal return. -/
theorem init_interface_raises_on_failure :
    ∀ o : SetupOutcome,
      (init_interface o = Except.ok () ↔ o = SetupOutcome.success) ∧
        ((∃ e, init_interface o = Except.error e) ↔ o ≠ SetupOutcome.success) ∧
        (callerContinues (init_interface o) = true ↔ o = SetupOutcome.success) := by
  intro o
  cases o with
  | success => simp [init_interface, callerContinues]
  | failure msg => simp [init_interface, callerContinues]

end Catacurses
